import Mathlib

/-!
Shallow embedding of `cluster/vigil/vigil/modes/mysql/server.go`
(the MySQL-mode connection-admission and lifecycle supervisor of the
octelium vigil gateway).

The Go code is concurrent and effectful; we embed it as pure Lean
functions over explicit state records, producing event traces that
record the externally observable actions (closing sockets, emitting
access-log entries, mutating the session registry, signalling
cancellation, closing channels).  Mutex-guarded critical sections in
the Go code serialize the corresponding operations, so each guarded
operation is modelled as one atomic state transition.
-/

/-- A Go `error` value.  `isNotFound` reflects `grpcerr.IsNotFound`. -/
structure GoError where
  isNotFound : Bool
  msg : String
deriving DecidableEq, Repr

/-- A `corev1.Secret` holding cluster-certificate material; only its
identity matters to the supervisor, so we keep an abstract payload. -/
structure Secret where
  value : String
deriving DecidableEq, Repr

/-- Modelled from the spec: `ocrypto.GetTLSCertificate` (not under
`src/`) derives TLS certificate material from the installed secret;
per the spec the callback "returns the most recently installed
certificate material", so the derived certificate is represented by
the secret it was derived from. -/
structure TLSCertificate where
  fromSecret : Secret
deriving DecidableEq, Repr

/-- Modelled from the spec: the derivation performed by
`ocrypto.GetTLSCertificate`, returning material derived from the
given secret. -/
def ocryptoGetTLSCertificate (s : Secret) : Except GoError TLSCertificate :=
  .ok ⟨s⟩

/-- The `crtMan` field of `Server`: the currently held cluster
certificate, absent until installed (`crtMan.crt` in the Go struct,
a possibly-nil pointer). -/
abbrev CrtMan := Option Secret

/-- `Server.SetClusterCertificate` (server.go:94-99): replaces the held
certificate under the write lock and returns nil.  The first component
is the new `crtMan` state, the second the returned error. -/
def setClusterCertificate (crt : Option Secret) (_old : CrtMan) :
    CrtMan × Option GoError :=
  (crt, none)

/-- The `GetCertificate` callback installed by `setTLSConfig`
(server.go:297-304): under the read lock, if no certificate is held it
returns `(nil, nil)`; otherwise it returns
`ocrypto.GetTLSCertificate` of the held secret. -/
def getCertificateCallback (crt : CrtMan) : Except GoError (Option TLSCertificate) :=
  match crt with
  | none => .ok none
  | some c =>
    match ocryptoGetTLSCertificate c with
    | .ok cert => .ok (some cert)
    | .error e => .error e

/-- The verdict returned by
`octovigilc.Client.AuthenticateAndAuthorize`. -/
structure AuthResponse where
  isAuthenticated : Bool
  isAuthorized : Bool
  requestContext : String
  authorizationDecisionReason : String
deriving DecidableEq, Repr

/-- Access-log entry kinds emitted by the handler
(`AccessLog_Entry_Info_MySQL_SESSION_START` / `SESSION_END`). -/
inductive LogType where
  | sessionStart
  | sessionEnd
deriving DecidableEq, Repr

/-- How the session handler's serve loop ends; the Go `dctx.serve(ctx)`
returns in every case, so this only tags the trace. -/
inductive ServeExit where
  | normal
  | error
  | cancelled
deriving DecidableEq, Repr

/-- Externally observable actions of `handleConn` (server.go:152-261),
in program order. -/
inductive HEvent where
  /-- `c.Close()` on the downstream socket. -/
  | closeConn
  /-- `downstreamConn.Close()` on the wrapped MySQL connection. -/
  | closeDownstreamConn
  /-- `otelutils.EmitAccessLog` with the recorded fields. -/
  | emitLog (t : LogType) (isAuthenticated isAuthorized : Bool)
      (reason : Option String) (connectionId : Option String)
  /-- `dctx.connect(...)`: the upstream connection attempt. -/
  | upstreamConnect
  /-- `s.dctxMap.dctxMap[dctx.id] = dctx` under the registry mutex. -/
  | registryInsert (id : String)
  /-- `s.metricsStore.AtRequestStart()`. -/
  | metricsStart
  /-- `dctx.serve(ctx)`, blocking for the session's duration. -/
  | serve (exit : ServeExit)
  /-- `s.metricsStore.AtRequestEnd(...)`. -/
  | metricsEnd
  /-- `delete(s.dctxMap.dctxMap, dctx.id)` under the registry mutex. -/
  | registryRemove (id : String)
  /-- the deferred `dctx.close()`, run at function return. -/
  | dctxClose
deriving DecidableEq, Repr

/-- The environment a single `handleConn` invocation runs against:
the outcomes of each external call it makes, in the order it makes
them. -/
structure HandleConnEnv where
  /-- whether `s.svc()` returns a non-nil Service. -/
  svcPresent : Bool
  /-- result of `s.octovigilC.AuthenticateAndAuthorize`. -/
  authResult : Except GoError AuthResponse
  /-- whether `s.getDownstreamConn(c)` succeeds. -/
  downstreamConnOk : Bool
  /-- whether `dctx.connect(...)` succeeds. -/
  connectOk : Bool
  /-- the fresh session identifier `dctx.id`. -/
  dctxId : String
  /-- how `dctx.serve(ctx)` ends. -/
  serveExit : ServeExit
deriving Repr

/-- `Server.handleConn` (server.go:152-261) as a trace of observable
events.  Control flow mirrors the source: nil-service guard, the
authenticate-and-authorize call, the authenticated-but-not-authorized
early return with its session-start log, downstream-conn creation,
upstream connect, session-start log, registry insertion, metrics,
serve, metrics, registry removal, session-end log, and the deferred
`dctx.close()` which runs last. -/
def handleConn (env : HandleConnEnv) : List HEvent :=
  if env.svcPresent = false then
    [.closeConn]
  else
    match env.authResult with
    | .error _ => [.closeConn]
    | .ok authResp =>
      if authResp.isAuthenticated && !authResp.isAuthorized then
        [.emitLog .sessionStart true false
            (some authResp.authorizationDecisionReason) none,
         .closeConn]
      else
        if env.downstreamConnOk = false then
          [.closeConn]
        else
          [.upstreamConnect] ++
          (if env.connectOk = false then
            [.closeDownstreamConn, .closeConn]
          else
            [.emitLog .sessionStart true true
                (some authResp.authorizationDecisionReason) (some env.dctxId),
             .registryInsert env.dctxId,
             .metricsStart,
             .serve env.serveExit,
             .metricsEnd,
             .registryRemove env.dctxId,
             .emitLog .sessionEnd true true none (some env.dctxId),
             .dctxClose])

/-- Does an event emit an access-log entry? -/
def HEvent.isLog : HEvent → Bool
  | .emitLog _ _ _ _ _ => true
  | _ => false

/-- Does an event insert into the session registry? -/
def HEvent.isRegistryInsert : HEvent → Bool
  | .registryInsert _ => true
  | _ => false

/-- The mutable fields of `Server` (server.go:51-84) relevant to the
lifecycle claims, together with flags recording the effects shutdown
performs exactly once (cancellation signalled, listener closed,
completion channel closed). -/
structure ServerState where
  /-- the `isClosed` flag, guarded by `s.mu`. -/
  isClosed : Bool
  /-- whether `s.cancelFn` has been assigned (it is assigned only in
  `Run`, server.go:329); calling a nil `cancelFn` panics. -/
  cancelFnSet : Bool
  /-- whether `s.lis` is non-nil (assigned only in `Run`,
  server.go:315). -/
  lisSet : Bool
  /-- the keys of `s.dctxMap.dctxMap`: the session registry. -/
  dctxIds : List String
  /-- effect flag: the cancellation signal has been issued. -/
  cancelled : Bool
  /-- effect flag: `s.lis.Close()` has been called. -/
  lisClosed : Bool
  /-- effect flag: `close(s.doneComplete)` has been executed. -/
  doneClosed : Bool
deriving DecidableEq, Repr

/-- Observable actions of `Server.Close` (server.go:125-150), in
program order. -/
inductive CloseEvent where
  /-- `s.cancelFn()`: the cancellation signal. -/
  | cancel
  /-- `dctx.close()` on the registry entry with the given id. -/
  | dctxClose (id : String)
  /-- `s.lis.Close()`. -/
  | lisClose
  /-- `close(s.doneComplete)`: the completion channel closed. -/
  | doneClose
deriving DecidableEq, Repr

/-- The trace of the teardown branch of `Close`, from a given
pre-state: cancellation first, then `close()` on every registry
entry, then the listener (when present), then the completion
channel. -/
def teardownTrace (s : ServerState) : List CloseEvent :=
  .cancel :: (s.dctxIds.map .dctxClose ++
    (if s.lisSet then [.lisClose] else []) ++ [.doneClose])

/-- The server state after the teardown branch of `Close` has run:
`isClosed` set, cancellation issued, listener closed when present,
completion channel closed.  The registry map itself is not emptied
(`Close` calls `dctx.close()` on entries without deleting them). -/
def closeTeardownState (s : ServerState) : ServerState :=
  { s with
      isClosed := true
      cancelled := true
      lisClosed := s.lisSet || s.lisClosed
      doneClosed := true }

/-- `Server.Close` (server.go:125-150) as one atomic transition (its
body holds `s.mu` for its whole duration).  `.error ()` models the Go
runtime panic raised by invoking a nil `cancelFn`; otherwise the
result is the new state, the trace of the actions performed, and the
returned `error` value (always nil). -/
def closeCall (s : ServerState) : Except Unit (ServerState × List CloseEvent × Option GoError) :=
  if s.isClosed then
    .ok (s, [], none)
  else if s.cancelFnSet = false then
    .error ()
  else
    .ok (closeTeardownState s, teardownTrace s, none)

/-- A sequence of `n` successive `Close` calls (serialized by `s.mu`),
collecting each call's action trace and returned error. -/
def closeSeq : ServerState → Nat → Except Unit (ServerState × List (List CloseEvent × Option GoError))
  | s, 0 => .ok (s, [])
  | s, n + 1 =>
    match closeCall s with
    | .error e => .error e
    | .ok (s1, tr, r) =>
      match closeSeq s1 n with
      | .error e => .error e
      | .ok (s2, rest) => .ok (s2, (tr, r) :: rest)

/-- State of the TLS-configuration holder `tlsCfgMan`: whether a
config has been installed (`tlsCfg` non-nil). -/
structure TLSCfgMan where
  tlsCfgSet : Bool
deriving DecidableEq, Repr

/-- Environment of one `Run` invocation: the outcomes of the external
calls it makes. -/
structure RunEnv where
  /-- result of `net.Listen` on the service's real port. -/
  bindResult : Except GoError Unit
  /-- the service's `Spec.IsTLS` flag. -/
  isTLS : Bool
  /-- result of `s.octeliumC.CoreC().GetSecret` for the cluster
  certificate secret. -/
  getSecretResult : Except GoError Secret

/-- Post-`Run` observable server configuration: the lifecycle fields
plus the certificate and TLS-config holders. -/
structure RunState where
  server : ServerState
  crt : CrtMan
  tlsCfg : TLSCfgMan

/-- `Server.setTLSConfig` (server.go:281-309): fetch the cluster
certificate secret; a non-not-found error aborts; otherwise the held
certificate becomes the fetched secret (nil when the fetch returned
not-found, since Go returns a nil value alongside the error) and a
fresh TLS config with the certificate-selection callback is
installed. -/
def setTLSConfig (getSecretResult : Except GoError Secret) (st : RunState) :
    Except GoError RunState :=
  match getSecretResult with
  | .error e =>
    if e.isNotFound then
      .ok { st with crt := none, tlsCfg := ⟨true⟩ }
    else
      .error e
  | .ok c => .ok { st with crt := some c, tlsCfg := ⟨true⟩ }

/-- `Server.Run` (server.go:311-336): bind the listening port (a
failure is returned as-is, before `s.lis` is usable); when the
service requires TLS, run `setTLSConfig` (a failure is returned
as-is, but the listener assignment already happened); then assign
`cancelFn` and start the accept loop, returning nil.  The result is
the mutated server state paired with the returned `error`. -/
def run (env : RunEnv) (st : RunState) : RunState × Option GoError :=
  match env.bindResult with
  | .error e => (st, some e)
  | .ok _ =>
    let st1 : RunState := { st with server := { st.server with lisSet := true } }
    match (if env.isTLS then setTLSConfig env.getSecretResult st1 else .ok st1) with
    | .error e => (st1, some e)
    | .ok st2 =>
      ({ st2 with server := { st2.server with cancelFnSet := true } }, none)

/-- One `Accept` outcome seen by the accept loop: a connection, a
timeout error on the listening socket, or any other error. -/
inductive AcceptResult where
  | conn (id : String)
  | timeoutErr
  | otherErr
deriving DecidableEq, Repr

/-- Observable actions of the accept loop `serve`
(server.go:338-365). -/
inductive ServeEvent where
  /-- `go s.handleConn(ctx, conn)`: dispatch of an accepted
  connection. -/
  | dispatch (id : String)
  /-- `time.Sleep(100 * time.Millisecond)` before retrying. -/
  | sleep100ms
  /-- the loop returns ("shutting down server"). -/
  | exitLoop
deriving DecidableEq, Repr

/-- `Server.serve` (server.go:338-365) over a finite schedule of
accept outcomes, each paired with whether `ctx.Done()` is already
signalled at that iteration.  A successful accept is dispatched and
the loop continues; a timeout error sleeps and retries regardless of
cancellation; any other error exits when cancellation is signalled
and otherwise sleeps and retries.  The trace ends when the schedule
is exhausted or the loop returns. -/
def serveLoop : List (AcceptResult × Bool) → List ServeEvent
  | [] => []
  | (.conn id, _) :: rest => .dispatch id :: serveLoop rest
  | (.timeoutErr, _) :: rest => .sleep100ms :: serveLoop rest
  | (.otherErr, ctxDone) :: rest =>
    if ctxDone then [.exitLoop] else .sleep100ms :: serveLoop rest

/-- A schedule entry is a transient accept error when it is a timeout
(retried unconditionally) or another error with cancellation not yet
signalled. -/
def transientErr : AcceptResult × Bool → Prop
  | (.timeoutErr, _) => True
  | (.otherErr, ctxDone) => ctxDone = false
  | (.conn _, _) => False

instance : DecidablePred transientErr := by
  intro p
  rcases p with ⟨r, d⟩
  cases r <;> simp [transientErr] <;> infer_instance

/-! ## Claims about `handleConn` -/

/-- Concrete environment refuting C1: the policy call itself succeeds
but the verdict is not authenticated (and not authorized). -/
def c1CexEnv : HandleConnEnv :=
  { svcPresent := true
    authResult := .ok
      { isAuthenticated := false
        isAuthorized := false
        requestContext := "ctx"
        authorizationDecisionReason := "denied" }
    downstreamConnOk := true
    connectOk := true
    dctxId := "sess-1"
    serveExit := .normal }

/-- C1 (counterexample): the claim says that when the policy verdict
is not authenticated the handler closes the connection, emits no
session-start or session-end log entry and creates no registry entry.
At `c1CexEnv` the verdict is `isAuthenticated = false`, yet the
handler's guard `IsAuthenticated && !IsAuthorized` (server.go:172)
is false, so the connection proceeds to admission: a session-start
log entry (hard-coded as authenticated and authorized) is emitted and
a registry entry is created. -/
theorem c1_counterexample :
    c1CexEnv.authResult = .ok
      { isAuthenticated := false
        isAuthorized := false
        requestContext := "ctx"
        authorizationDecisionReason := "denied" } ∧
    HEvent.registryInsert "sess-1" ∈ handleConn c1CexEnv ∧
    HEvent.emitLog .sessionStart true true (some "denied") (some "sess-1") ∈
      handleConn c1CexEnv ∧
    HEvent.closeConn ∉ handleConn c1CexEnv := by
  refine ⟨rfl, ?_, ?_, ?_⟩ <;> simp [handleConn, c1CexEnv]

/-- C1 (amended): for every accepted connection on which the policy
call returns an error, the handler closes the downstream connection,
emits no session-start or session-end access-log entry, and creates
no entry in the session registry. -/
theorem c1_amended_policy_error (env : HandleConnEnv) (e : GoError)
    (h : env.authResult = .error e) :
    handleConn env = [HEvent.closeConn] ∧
    (handleConn env).any HEvent.isLog = false ∧
    (handleConn env).any HEvent.isRegistryInsert = false := by
  rcases env with ⟨svc, ar, dok, cok, id, se⟩
  cases h
  cases svc <;>
    simp [handleConn, HEvent.isLog, HEvent.isRegistryInsert]

/-- C1 (witness for the amended theorem): a concrete connection whose
policy call errors is closed with an empty effect trace beyond the
close. -/
theorem c1_amended_witness :
    handleConn
      { svcPresent := true
        authResult := .error { isNotFound := false, msg := "authn failed" }
        downstreamConnOk := true
        connectOk := true
        dctxId := "sess-e"
        serveExit := .normal } = [HEvent.closeConn] ∧
    (handleConn
      { svcPresent := true
        authResult := .error { isNotFound := false, msg := "authn failed" }
        downstreamConnOk := true
        connectOk := true
        dctxId := "sess-e"
        serveExit := .normal }).any HEvent.isLog = false ∧
    (handleConn
      { svcPresent := true
        authResult := .error { isNotFound := false, msg := "authn failed" }
        downstreamConnOk := true
        connectOk := true
        dctxId := "sess-e"
        serveExit := .normal }).any HEvent.isRegistryInsert = false :=
  c1_amended_policy_error _ { isNotFound := false, msg := "authn failed" } rfl

/-- C2: for every accepted connection on which the policy client
reports authenticated but not authorized, the handler emits exactly
one access-log entry — a session-start entry marked authenticated but
not authorized, carrying the decision reason — then closes the
downstream connection, with no upstream connection attempted and no
registry insertion. -/
theorem c2_auth_denied (env : HandleConnEnv) (r : AuthResponse)
    (hsvc : env.svcPresent = true)
    (h : env.authResult = .ok r)
    (ha : r.isAuthenticated = true)
    (hz : r.isAuthorized = false) :
    handleConn env =
      [HEvent.emitLog .sessionStart true false
         (some r.authorizationDecisionReason) none,
       HEvent.closeConn] ∧
    ((handleConn env).filter HEvent.isLog).length = 1 ∧
    HEvent.upstreamConnect ∉ handleConn env ∧
    (handleConn env).any HEvent.isRegistryInsert = false := by
  rcases env with ⟨svc, ar, dok, cok, id, se⟩
  cases h
  rcases r with ⟨ia, iz, rc, rs⟩
  cases ha
  cases hz
  cases hsvc
  simp [handleConn, HEvent.isLog, HEvent.isRegistryInsert]

/-- C2 (witness): a concrete authenticated-but-denied connection
yields exactly the unauthorized session-start entry followed by the
close. -/
theorem c2_auth_denied_witness :
    handleConn
      { svcPresent := true
        authResult := .ok
          { isAuthenticated := true
            isAuthorized := false
            requestContext := "ctx"
            authorizationDecisionReason := "policy-deny" }
        downstreamConnOk := true
        connectOk := true
        dctxId := "sess-d"
        serveExit := .normal } =
      [HEvent.emitLog .sessionStart true false (some "policy-deny") none,
       HEvent.closeConn] ∧
    ((handleConn
      { svcPresent := true
        authResult := .ok
          { isAuthenticated := true
            isAuthorized := false
            requestContext := "ctx"
            authorizationDecisionReason := "policy-deny" }
        downstreamConnOk := true
        connectOk := true
        dctxId := "sess-d"
        serveExit := .normal }).filter HEvent.isLog).length = 1 ∧
    HEvent.upstreamConnect ∉ handleConn
      { svcPresent := true
        authResult := .ok
          { isAuthenticated := true
            isAuthorized := false
            requestContext := "ctx"
            authorizationDecisionReason := "policy-deny" }
        downstreamConnOk := true
        connectOk := true
        dctxId := "sess-d"
        serveExit := .normal } ∧
    (handleConn
      { svcPresent := true
        authResult := .ok
          { isAuthenticated := true
            isAuthorized := false
            requestContext := "ctx"
            authorizationDecisionReason := "policy-deny" }
        downstreamConnOk := true
        connectOk := true
        dctxId := "sess-d"
        serveExit := .normal }).any HEvent.isRegistryInsert = false :=
  c2_auth_denied
    { svcPresent := true
      authResult := .ok
        { isAuthenticated := true
          isAuthorized := false
          requestContext := "ctx"
          authorizationDecisionReason := "policy-deny" }
      downstreamConnOk := true
      connectOk := true
      dctxId := "sess-d"
      serveExit := .normal }
    { isAuthenticated := true
      isAuthorized := false
      requestContext := "ctx"
      authorizationDecisionReason := "policy-deny" }
    rfl rfl rfl rfl

/-- C9: per admitted connection, registry insertion strictly precedes
the serve loop, registry removal strictly follows serve-loop
completion — for every way the serve loop exits — and the session-end
access-log entry is emitted after the removal.  The full event trace
of the admitted path is fixed, and the insert, serve, remove and
session-end events occupy positions 2 < 4 < 6 < 7 of it. -/
theorem c9_admitted_ordering (env : HandleConnEnv) (r : AuthResponse)
    (hsvc : env.svcPresent = true)
    (h : env.authResult = .ok r)
    (hadm : (r.isAuthenticated && !r.isAuthorized) = false)
    (hd : env.downstreamConnOk = true)
    (hc : env.connectOk = true) :
    handleConn env =
      [HEvent.upstreamConnect,
       HEvent.emitLog .sessionStart true true
         (some r.authorizationDecisionReason) (some env.dctxId),
       HEvent.registryInsert env.dctxId,
       HEvent.metricsStart,
       HEvent.serve env.serveExit,
       HEvent.metricsEnd,
       HEvent.registryRemove env.dctxId,
       HEvent.emitLog .sessionEnd true true none (some env.dctxId),
       HEvent.dctxClose] ∧
    (handleConn env).get? 2 = some (HEvent.registryInsert env.dctxId) ∧
    (handleConn env).get? 4 = some (HEvent.serve env.serveExit) ∧
    (handleConn env).get? 6 = some (HEvent.registryRemove env.dctxId) ∧
    (handleConn env).get? 7 =
      some (HEvent.emitLog .sessionEnd true true none (some env.dctxId)) := by
  rcases env with ⟨svc, ar, dok, cok, id, se⟩
  cases h
  cases hsvc
  cases hd
  cases hc
  have htr :
      handleConn
        { svcPresent := true
          authResult := .ok r
          downstreamConnOk := true
          connectOk := true
          dctxId := id
          serveExit := se } =
      [HEvent.upstreamConnect,
       HEvent.emitLog .sessionStart true true
         (some r.authorizationDecisionReason) (some id),
       HEvent.registryInsert id,
       HEvent.metricsStart,
       HEvent.serve se,
       HEvent.metricsEnd,
       HEvent.registryRemove id,
       HEvent.emitLog .sessionEnd true true none (some id),
       HEvent.dctxClose] := by
    simp [handleConn, hadm]
  exact ⟨htr, by rw [htr]; rfl, by rw [htr]; rfl, by rw [htr]; rfl,
    by rw [htr]; rfl⟩

/-- Environment for the C9 witness: an admitted connection whose
serve loop ends by error. -/
def c9WEnv : HandleConnEnv :=
  { svcPresent := true
    authResult := .ok
      { isAuthenticated := true
        isAuthorized := true
        requestContext := "ctx"
        authorizationDecisionReason := "allow" }
    downstreamConnOk := true
    connectOk := true
    dctxId := "sess-9"
    serveExit := .error }

/-- C9 (witness): the admitted-path trace at `c9WEnv`, whose serve
loop ends by error, still performs insert, serve, remove, session-end
in that order. -/
theorem c9_admitted_ordering_witness :
    handleConn c9WEnv =
      [HEvent.upstreamConnect,
       HEvent.emitLog .sessionStart true true (some "allow") (some "sess-9"),
       HEvent.registryInsert "sess-9",
       HEvent.metricsStart,
       HEvent.serve .error,
       HEvent.metricsEnd,
       HEvent.registryRemove "sess-9",
       HEvent.emitLog .sessionEnd true true none (some "sess-9"),
       HEvent.dctxClose] ∧
    (handleConn c9WEnv).get? 2 = some (HEvent.registryInsert "sess-9") ∧
    (handleConn c9WEnv).get? 4 = some (HEvent.serve .error) ∧
    (handleConn c9WEnv).get? 6 = some (HEvent.registryRemove "sess-9") ∧
    (handleConn c9WEnv).get? 7 =
      some (HEvent.emitLog .sessionEnd true true none (some "sess-9")) :=
  c9_admitted_ordering c9WEnv
    { isAuthenticated := true
      isAuthorized := true
      requestContext := "ctx"
      authorizationDecisionReason := "allow" }
    rfl rfl rfl rfl rfl

/-! ## Claims about `Close` -/

/-- On an already-closed server, `Close` returns nil immediately,
performing no action and leaving the state unchanged
(server.go:128-130). -/
theorem closeCall_of_closed (s : ServerState) (h : s.isClosed = true) :
    closeCall s = .ok (s, [], none) := by
  simp [closeCall, h]

/-- Any number of `Close` calls on an already-closed server are
no-ops: each returns nil with an empty action trace and the state
never changes. -/
theorem closeSeq_of_closed (s : ServerState) (h : s.isClosed = true) :
    ∀ m : Nat, closeSeq s m = .ok (s, List.replicate m ([], none)) := by
  intro m
  induction m with
  | zero => rfl
  | succ m ih =>
    simp [closeSeq, closeCall_of_closed s h, ih, List.replicate_succ]

/-- The teardown state has the `isClosed` flag set. -/
theorem closeTeardownState_isClosed (s : ServerState) :
    (closeTeardownState s).isClosed = true := rfl

/-- C3: `Close` is idempotent.  For any sequence of `n + 1` `Close`
calls on a running server (not yet closed, `cancelFn` assigned by a
successful `Run`): the first call performs the teardown and every
later call returns with an empty action trace and the state exactly
as the first call left it; every call returns nil; and the
completion channel is closed exactly once — the teardown trace
contains exactly one `doneClose` and no other call performs any
action at all. -/
theorem c3_close_idempotent (s : ServerState) (n : Nat)
    (h1 : s.isClosed = false) (h2 : s.cancelFnSet = true) :
    closeSeq s (n + 1) =
      .ok (closeTeardownState s,
        (teardownTrace s, none) :: List.replicate n ([], none)) ∧
    (teardownTrace s).count CloseEvent.doneClose = 1 := by
  constructor
  · simp [closeSeq, closeCall, h1, h2,
      closeSeq_of_closed (closeTeardownState s) (closeTeardownState_isClosed s) n]
  · have hmap : (s.dctxIds.map CloseEvent.dctxClose).count CloseEvent.doneClose = 0 := by
      rw [List.count_eq_zero]
      simp
    cases hl : s.lisSet <;>
      simp [teardownTrace, hl, List.count_append, List.count_cons, hmap]

/-- Running server used by the `Close` witnesses: two live sessions,
listener bound, `cancelFn` assigned. -/
def closeWState : ServerState :=
  { isClosed := false
    cancelFnSet := true
    lisSet := true
    dctxIds := ["sess-a", "sess-b"]
    cancelled := false
    lisClosed := false
    doneClosed := false }

/-- C3 (witness): three successive `Close` calls on a concrete
running server with two registered sessions — the first tears down,
the other two are nil no-ops, and `doneClose` happens once. -/
theorem c3_close_idempotent_witness :
    closeSeq closeWState (2 + 1) =
      .ok (closeTeardownState closeWState,
        (teardownTrace closeWState, none) :: List.replicate 2 ([], none)) ∧
    (teardownTrace closeWState).count CloseEvent.doneClose = 1 :=
  c3_close_idempotent closeWState 2 rfl rfl

/-- C4: the teardown performed by the first effective `Close` on a
running server with a bound listener performs, in order: the
cancellation signal, `close()` on every entry currently in the
session registry, the listener close, and last the completion-channel
close; the call returns nil and the resulting state is the teardown
state. -/
theorem c4_teardown_order (s : ServerState)
    (h1 : s.isClosed = false) (h2 : s.cancelFnSet = true)
    (h3 : s.lisSet = true) :
    closeCall s =
      .ok (closeTeardownState s,
        CloseEvent.cancel ::
          (s.dctxIds.map CloseEvent.dctxClose ++
            [CloseEvent.lisClose, CloseEvent.doneClose]),
        none) ∧
    (teardownTrace s).getLast? = some CloseEvent.doneClose := by
  have htr : teardownTrace s =
      CloseEvent.cancel ::
        (s.dctxIds.map CloseEvent.dctxClose ++
          [CloseEvent.lisClose, CloseEvent.doneClose]) := by
    simp [teardownTrace, h3]
  have htr2 : teardownTrace s =
      (CloseEvent.cancel :: (s.dctxIds.map CloseEvent.dctxClose ++
        [CloseEvent.lisClose])) ++ [CloseEvent.doneClose] := by
    simp [teardownTrace, h3]
  constructor
  · rw [closeCall, if_neg (by simp [h1]), if_neg (by simp [h2]), htr]
  · rw [htr2, List.getLast?_concat]

/-- C4 (witness): the teardown trace at the concrete running server
`closeWState` is cancel, close of both sessions, listener close,
completion close, in that order. -/
theorem c4_teardown_order_witness :
    closeCall closeWState =
      .ok (closeTeardownState closeWState,
        CloseEvent.cancel ::
          (closeWState.dctxIds.map CloseEvent.dctxClose ++
            [CloseEvent.lisClose, CloseEvent.doneClose]),
        none) ∧
    (teardownTrace closeWState).getLast? = some CloseEvent.doneClose :=
  c4_teardown_order closeWState rfl rfl rfl

/-- The server state produced by `New` (server.go:101-123): not
closed, no `cancelFn`, no listener, empty registry, nothing torn
down. -/
def newServerState : ServerState :=
  { isClosed := false
    cancelFnSet := false
    lisSet := false
    dctxIds := []
    cancelled := false
    lisClosed := false
    doneClosed := false }

/-- C10: calling `Close` on a server whose `cancelFn` was never
assigned — it is assigned only by `Run` (server.go:329) — reaches
`s.cancelFn()` (server.go:133) with a nil function and panics, so a
successful `Run` is a precondition for `Close` to be safe. -/
theorem c10_close_without_run_panics (s : ServerState)
    (h1 : s.isClosed = false) (h2 : s.cancelFnSet = false) :
    closeCall s = .error () := by
  simp [closeCall, h1, h2]

/-- C10 (witness): `Close` on the state `New` produces panics. -/
theorem c10_close_without_run_panics_witness :
    closeCall newServerState = .error () :=
  c10_close_without_run_panics newServerState rfl rfl

/-! ## Claims about the certificate rotation manager -/

/-- C5: after `SetClusterCertificate(X)` returns (with a nil error),
the held certificate is exactly `X`, so every certificate-selection
callback invocation that begins afterward returns the certificate
material derived from `X`; a callback invocation that completed
before the rotation read only the prior holder state, which the
rotation does not touch. -/
theorem c5_rotation (old : CrtMan) (X : Secret) :
    (setClusterCertificate (some X) old).2 = none ∧
    (setClusterCertificate (some X) old).1 = some X ∧
    getCertificateCallback (setClusterCertificate (some X) old).1 =
      .ok (some (TLSCertificate.mk X)) := by
  exact ⟨rfl, rfl, rfl⟩

/-- C6: when no certificate has ever been installed, the
certificate-selection callback returns no certificate and no error
(server.go:300-302). -/
theorem c6_no_certificate :
    getCertificateCallback (none : CrtMan) = .ok none := rfl

/-! ## Claims about `Run` and the accept loop -/

/-- The condition under which `Run` is expected to return an error:
the port bind fails, or TLS is required and the certificate fetch
fails with an error other than not-found. -/
def runFailsExpected (env : RunEnv) : Bool :=
  (match env.bindResult with
    | .error _ => true
    | .ok _ => false) ||
  (env.isTLS &&
    (match env.getSecretResult with
      | .error e => !e.isNotFound
      | .ok _ => false))

/-- C7: `Run` returns an error exactly when the port cannot be bound
or when TLS is required and the startup certificate fetch fails with
a non-not-found error; and when TLS is required but the fetch reports
not-found, `Run` returns nil and reaches the running state —
listener bound, TLS config installed, `cancelFn` assigned — with no
certificate installed. -/
theorem c7_run_errors (env : RunEnv) (st : RunState) :
    ((run env st).2.isSome = runFailsExpected env) ∧
    (∀ e : GoError, env.bindResult = .ok () → env.isTLS = true →
      env.getSecretResult = .error e → e.isNotFound = true →
      run env st =
        ({ server := { st.server with lisSet := true, cancelFnSet := true }
           crt := none
           tlsCfg := ⟨true⟩ }, none)) := by
  constructor
  · rcases env with ⟨br, tls, sr⟩
    cases br with
    | error e => simp [run, runFailsExpected]
    | ok u =>
      cases tls with
      | false => simp [run, runFailsExpected]
      | true =>
        cases sr with
        | ok c => simp [run, runFailsExpected, setTLSConfig]
        | error e =>
          cases hnf : e.isNotFound <;>
            simp [run, runFailsExpected, setTLSConfig, hnf]
  · intro e hb htls hsr hnf
    rcases env with ⟨br, tls, sr⟩
    cases hb
    cases htls
    cases hsr
    simp [run, setTLSConfig, hnf]

/-- Environment for the C7 witness: bind succeeds, TLS required, and
the secret store reports not-found. -/
def c7WEnv : RunEnv :=
  { bindResult := .ok ()
    isTLS := true
    getSecretResult := .error { isNotFound := true, msg := "not found" } }

/-- Initial `Run` state for the C7 witness: a freshly constructed
server with no certificate and no TLS config. -/
def c7WState : RunState :=
  { server := newServerState
    crt := none
    tlsCfg := ⟨false⟩ }

/-- C7 (witness): at `c7WEnv` the not-found fetch is not an error and
`Run` reaches the running state with no certificate installed. -/
theorem c7_run_errors_witness :
    ((run c7WEnv c7WState).2.isSome = runFailsExpected c7WEnv) ∧
    run c7WEnv c7WState =
      ({ server := { c7WState.server with lisSet := true, cancelFnSet := true }
         crt := none
         tlsCfg := ⟨true⟩ }, none) :=
  ⟨(c7_run_errors c7WEnv c7WState).1,
   (c7_run_errors c7WEnv c7WState).2
     { isNotFound := true, msg := "not found" } rfl rfl rfl rfl⟩

/-- Helper: over a schedule of transient accept errors, the accept
loop sleeps once per error and continues with the rest of the
schedule; it never exits. -/
theorem serveLoop_transient (errs : List (AcceptResult × Bool))
    (h : ∀ p ∈ errs, transientErr p) (rest : List (AcceptResult × Bool)) :
    serveLoop (errs ++ rest) =
      List.replicate errs.length ServeEvent.sleep100ms ++ serveLoop rest := by
  induction errs with
  | nil => simp
  | cons p errs ih =>
    have hp : transientErr p := h p (List.mem_cons_self p errs)
    have htail : ∀ q ∈ errs, transientErr q :=
      fun q hq => h q (List.mem_cons_of_mem p hq)
    rcases p with ⟨r, d⟩
    cases r with
    | conn id => exact absurd hp (by simp [transientErr])
    | timeoutErr =>
      simp [serveLoop, ih htail, List.replicate_succ]
    | otherErr =>
      have hd : d = false := hp
      subst hd
      simp [serveLoop, ih htail, List.replicate_succ]

/-- C8: the accept loop survives any finite run of transient accept
errors — each one (a timeout, or another error with no shutdown
signalled) only causes a 100ms sleep and a retry — and then
dispatches the next successfully accepted connection. -/
theorem c8_accept_resilience (errs : List (AcceptResult × Bool))
    (id : String) (d : Bool) (rest : List (AcceptResult × Bool))
    (h : ∀ p ∈ errs, transientErr p) :
    serveLoop (errs ++ (AcceptResult.conn id, d) :: rest) =
      List.replicate errs.length ServeEvent.sleep100ms ++
        ServeEvent.dispatch id :: serveLoop rest ∧
    ServeEvent.dispatch id ∈ serveLoop (errs ++ (AcceptResult.conn id, d) :: rest) ∧
    ServeEvent.exitLoop ∉
      List.replicate errs.length ServeEvent.sleep100ms ++
        [ServeEvent.dispatch id] := by
  have heq := serveLoop_transient errs h ((AcceptResult.conn id, d) :: rest)
  rw [show serveLoop ((AcceptResult.conn id, d) :: rest) =
      ServeEvent.dispatch id :: serveLoop rest from rfl] at heq
  refine ⟨heq, ?_, ?_⟩
  · rw [heq]
    simp
  · intro hmem
    rcases List.mem_append.mp hmem with hmem | hmem
    · exact absurd (List.eq_of_mem_replicate hmem) (by simp)
    · simp at hmem

/-- C8 (witness): three transient errors (two timeouts, one
non-timeout with no shutdown signalled) followed by a successful
accept: the loop sleeps three times, then dispatches the
connection. -/
theorem c8_accept_resilience_witness :
    serveLoop ([(AcceptResult.timeoutErr, false),
                (AcceptResult.otherErr, false),
                (AcceptResult.timeoutErr, true)] ++
        (AcceptResult.conn "conn-8", false) :: []) =
      List.replicate 3 ServeEvent.sleep100ms ++
        ServeEvent.dispatch "conn-8" :: serveLoop [] ∧
    ServeEvent.dispatch "conn-8" ∈
      serveLoop ([(AcceptResult.timeoutErr, false),
                  (AcceptResult.otherErr, false),
                  (AcceptResult.timeoutErr, true)] ++
          (AcceptResult.conn "conn-8", false) :: []) ∧
    ServeEvent.exitLoop ∉
      List.replicate 3 ServeEvent.sleep100ms ++
        [ServeEvent.dispatch "conn-8"] :=
  c8_accept_resilience
    [(AcceptResult.timeoutErr, false), (AcceptResult.otherErr, false),
     (AcceptResult.timeoutErr, true)]
    "conn-8" false [] (by decide)
